import Mathlib

/-!
Shallow embedding of the LED night light controller
(src/arduino/led_night_light/led_night_light.ino).

Machine bytes are modelled as `Nat` with an explicit `% 256` wherever the
source truncates to `byte`; `int` intermediates are modelled as `Int`.
The Adafruit strip and the EEPROM are capabilities: strip calls become an
`Effect` trace, the EEPROM becomes explicit byte values at addresses 0-2.
-/

namespace NightLight

/-- RGB color struct (three bytes), mirroring `struct RGB` (src 52-56). -/
structure RGB where
  r : Nat
  g : Nat
  b : Nat
  deriving DecidableEq, Repr

/-- The zero color `{0, 0, 0}`. -/
def black : RGB := ⟨0, 0, 0⟩

def NUM_LEDS : Nat := 10
def MODECOUNT : Nat := 3
def MODE_UNIFIED : Nat := 0
def MODE_COMPLEMENTARY : Nat := 1
def MODE_RAIN : Nat := 2
def NUM_COLORS : Nat := 8
def DEBOUNCE_DELAY : Nat := 50

/-- Table `brightnessValues` (src 78-84). -/
def brightnessValues : List Nat := [50, 90, 130, 180, 220]

/-- Palette `colors` (src 88-97). -/
def colors : List RGB :=
  [⟨255, 255, 255⟩, ⟨255, 127, 0⟩, ⟨255, 225, 0⟩, ⟨127, 255, 0⟩,
   ⟨0, 255, 255⟩, ⟨127, 0, 255⟩, ⟨230, 30, 110⟩, ⟨255, 60, 40⟩]

/-- Palette `complementary_colors` (src 101-110), index-aligned to `colors`. -/
def complementary_colors : List RGB :=
  [colors.getD 4 black, colors.getD 2 black, colors.getD 7 black,
   colors.getD 2 black, colors.getD 0 black, colors.getD 6 black,
   colors.getD 5 black, colors.getD 1 black]

def COMPLEMENTARY_FRONT : Bool := false
def COMPLEMENTARY_REAR : Bool := true

/-- Map `complementary_LED_map` (src 116-127). -/
def complementary_LED_map : List Bool :=
  [COMPLEMENTARY_FRONT, COMPLEMENTARY_FRONT, COMPLEMENTARY_FRONT,
   COMPLEMENTARY_REAR, COMPLEMENTARY_REAR, COMPLEMENTARY_REAR,
   COMPLEMENTARY_REAR, COMPLEMENTARY_REAR, COMPLEMENTARY_REAR,
   COMPLEMENTARY_FRONT]

/-- Map `rain_phase_LED_map` (src 131). -/
def rain_phase_LED_map : List Nat := [0, 2, 1, 1, 2, 0, 0, 2, 1, 0]

/-- Function `incBrightness` (src 330-345), the part acting on `inputBrightnessLevel`:
`byte newBrightness = inputBrightnessLevel + 1;` truncates to a byte, then
values above 4 wrap to 0. -/
def incBrightness (inputBrightnessLevel : Nat) : Nat :=
  let newBrightness := (inputBrightnessLevel + 1) % 256
  if newBrightness > 4 then 0 else newBrightness

/-- Function `cycleMode` (src 351-365), the part acting on `currentMode`. -/
def cycleMode (currentMode : Nat) : Nat :=
  let newMode := (currentMode + 1) % 256
  if newMode ≥ MODECOUNT then 0 else newMode

/-- Function `cycleColor` (src 371-385), the part acting on `currentColorIndex`. -/
def cycleColor (currentColorIndex : Nat) : Nat :=
  let newColorIndex := (currentColorIndex + 1) % 256
  if newColorIndex ≥ NUM_COLORS then 0 else newColorIndex

/-- One channel of `halfwayBetweenColors` (src 552-574): the source
initialises `result = A` and overwrites the channel only when the two
inputs differ, which the final `else` branch reproduces here. -/
def halfwayChannel (a b : Nat) : Nat :=
  if a < b then a + (b - a) / 2
  else if a > b then b + (a - b) / 2
  else a

/-- Function `halfwayBetweenColors` (src 552-574). -/
def halfwayBetweenColors (A B : RGB) : RGB :=
  ⟨halfwayChannel A.r B.r, halfwayChannel A.g B.g, halfwayChannel A.b B.b⟩

/-- The Arduino `constrain(amt, low, high)` macro on `int` values. -/
def constrain (x lo hi : Int) : Int :=
  if x < lo then lo else if x > hi then hi else x

/-- Constant `LED_COLOR_GRADUATION` (src 32). -/
def LED_COLOR_GRADUATION : Int := 1

/-- One per-channel graduation step from `updateLEDs` (src 487-510): the
arithmetic runs on `int`, and `byte(newR)` truncates modulo 256 at the end. -/
def graduateChannel (actual target : Nat) : Nat :=
  let n : Int := actual
  let t : Int := target
  let n2 : Int :=
    if n < t then constrain (n + LED_COLOR_GRADUATION) 0 t
    else if n > t then constrain (n - LED_COLOR_GRADUATION) t 255
    else n
  (n2 % 256).toNat

/-- The per-LED graduation from `updateLEDs` (src 487-510), all three
channels. -/
def graduateColor (actual target : RGB) : RGB :=
  ⟨graduateChannel actual.r target.r, graduateChannel actual.g target.g,
   graduateChannel actual.b target.b⟩

/-- The brightness graduation step from `updateLEDs` (src 523-529); the
assignment `actualBrightness = newBrightness` truncates to a byte. -/
def graduateBrightness (actual target : Nat) : Nat :=
  let n : Int := actual
  let t : Int := target
  let n2 : Int :=
    if n < t then constrain (n + LED_COLOR_GRADUATION) 0 t
    else constrain (n - LED_COLOR_GRADUATION) t 255
  (n2 % 256).toNat

/-- Target-color computation for one LED position: the `switch (currentMode)`
block of `updateLEDs` (src 420-471). `old` is the position's previous target,
kept when no branch assigns (unknown mode, or a rain phase id matching none of
the three phases). The `+ 1` / `+ 2` on the rain phase are byte additions. -/
def computeTarget (currentMode currentColorIndex currentRainPhase i : Nat)
    (old : RGB) : RGB :=
  if currentMode = MODE_UNIFIED then
    colors.getD currentColorIndex black
  else if currentMode = MODE_COMPLEMENTARY then
    if complementary_LED_map.getD i false = COMPLEMENTARY_FRONT then
      colors.getD currentColorIndex black
    else
      complementary_colors.getD currentColorIndex black
  else if currentMode = MODE_RAIN then
    let primaryPhase := currentRainPhase % 256
    let secondaryPhase0 := (currentRainPhase + 1) % 256
    let tertiaryPhase0 := (currentRainPhase + 2) % 256
    let secondaryPhase :=
      if secondaryPhase0 > 2 then secondaryPhase0 - 3 else secondaryPhase0
    let tertiaryPhase :=
      if tertiaryPhase0 > 2 then tertiaryPhase0 - 3 else tertiaryPhase0
    let p := rain_phase_LED_map.getD i 0
    if p = primaryPhase then colors.getD currentColorIndex black
    else if p = secondaryPhase then
      halfwayBetweenColors (colors.getD currentColorIndex black)
        (complementary_colors.getD currentColorIndex black)
    else if p = tertiaryPhase then
      complementary_colors.getD currentColorIndex black
    else old
  else old

/-- The mutable animation state read and written by `updateLEDs`. -/
structure LightState where
  currentMode : Nat
  currentColorIndex : Nat
  inputBrightnessLevel : Nat
  targetBrightness : Nat
  actualBrightness : Nat
  currentRainPhase : Nat
  targetColor : List RGB
  actualColor : List RGB
  lastLEDUpdate : Nat
  deriving DecidableEq, Repr

/-- Calls staged to the strip capability during one `updateLEDs` tick. -/
inductive Effect where
  | setPixelColor (i : Nat) (c : RGB)
  | setBrightness (v : Nat)
  | showFrame
  deriving DecidableEq, Repr

/-- The frame-rate limiter `(currentMillis - lastLEDUpdate) > LED_UPDATE_DELAY`
(src 417). `LED_UPDATE_DELAY` is 8.3333, and the integer difference exceeds
8.3333 exactly when it is at least 9, i.e. exceeds 8. -/
def frameEligible (now last : Nat) : Bool := decide (8 < now - last)

/-- The target recomputation of `updateLEDs` (src 420-471) over all LED
positions. -/
def computeTargets (s : LightState) : List RGB :=
  (List.range NUM_LEDS).map fun i =>
    computeTarget s.currentMode s.currentColorIndex s.currentRainPhase i
      (s.targetColor.getD i black)

/-- One iteration of the graduation loop of `updateLEDs` (src 477-515) for
position `i`: the new actual color, the staged strip call (if any), and
whether this position set `somethingChanged`. -/
def gradPixel (i : Nat) (a t : RGB) : RGB × Option Effect × Bool :=
  if a = t then (a, none, false)
  else
    let a2 := graduateColor a t
    (a2, some (Effect.setPixelColor i a2), true)

/-- Function `updateLEDs` (src 412-543) as one tick: the new state, the strip calls in
the order the source issues them, and the final `somethingChanged` flag. A
tick failing the frame-rate limiter changes nothing and stages nothing. -/
def stepLEDs (s : LightState) (now : Nat) : LightState × List Effect × Bool :=
  if frameEligible now s.lastLEDUpdate then
    let tgt := computeTargets s
    let pix := (List.range NUM_LEDS).map fun i =>
      gradPixel i (s.actualColor.getD i black) (tgt.getD i black)
    let newActual := pix.map fun x => x.1
    let pixelEffects := pix.filterMap fun x => x.2.1
    let colorChanged := pix.any fun x => x.2.2
    let bd :=
      if s.targetBrightness ≠ s.actualBrightness then
        let nb := graduateBrightness s.actualBrightness s.targetBrightness
        (nb, [Effect.setBrightness nb], true)
      else (s.actualBrightness, ([] : List Effect), false)
    let changed := colorChanged || bd.2.2
    ({ s with
        targetColor := tgt
        actualColor := newActual
        actualBrightness := bd.1
        lastLEDUpdate := now },
     pixelEffects ++ bd.2.1 ++ (if changed then [Effect.showFrame] else []),
     changed)
  else (s, [], false)

/-- The three persisted user selections (src 134, 137, 146). -/
structure Selection where
  currentMode : Nat
  inputBrightnessLevel : Nat
  currentColorIndex : Nat
  deriving DecidableEq, Repr

/-- The compiled-in defaults: `MODE_UNIFIED`, level 3, color index 0. -/
def initialSelection : Selection := ⟨MODE_UNIFIED, 3, 0⟩

/-- Function `saveState` (src 293-297): the three bytes written to EEPROM addresses
0, 1 and 2. `EEPROM.write` takes a byte, truncating modulo 256. -/
def saveState (s : Selection) : Nat × Nat × Nat :=
  (s.currentMode % 256, s.inputBrightnessLevel % 256, s.currentColorIndex % 256)

/-- The selection part of `loadState` (src 304-310): each field keeps its
prior (compiled-in) value when the stored byte is the sentinel 255. -/
def loadSelection (prior : Selection) (e0 e1 e2 : Nat) : Selection :=
  { currentMode := if e0 = 255 then prior.currentMode else e0
    inputBrightnessLevel :=
      if e1 = 255 then prior.inputBrightnessLevel else e1
    currentColorIndex := if e2 = 255 then prior.currentColorIndex else e2 }

/-- Function `loadState` (src 303-324): the selection after the load, then
`targetBrightness`, `actualBrightness`, and the `actualColor` array. -/
def loadState (prior : Selection) (e0 e1 e2 : Nat) :
    Selection × Nat × Nat × List RGB :=
  let sel := loadSelection prior e0 e1 e2
  (sel, brightnessValues.getD sel.inputBrightnessLevel 0, 0,
   List.replicate NUM_LEDS black)

/-- The per-button decoder state (src 60-64): `btnState`, `btnPressHandled`
and `btnDownStart` for buttons 0 and 1. -/
structure BtnS where
  btnState0 : Bool
  btnState1 : Bool
  btnPressHandled0 : Bool
  btnPressHandled1 : Bool
  btnDownStart0 : Nat
  btnDownStart1 : Nat
  deriving DecidableEq, Repr

/-- The three logical actions the combo decoder can emit. -/
inductive LogicalAction where
  | cycleColorAct
  | cycleModeAct
  | incBrightnessAct
  deriving DecidableEq, Repr

/-- Function `btnStateChange` (src 236-287): records the new debounced state of
button `btnNumber` and emits at most one logical action. `duration` is only
logged in the source. -/
def btnStateChange (s : BtnS) (btnNumber : Nat) (newState : Bool)
    (currentMillis duration : Nat) : BtnS × Option LogicalAction :=
  let s1 := if btnNumber = 0 then { s with btnState0 := newState }
            else { s with btnState1 := newState }
  if newState then
    (if btnNumber = 0 then
       { s1 with btnDownStart0 := currentMillis, btnPressHandled0 := false }
     else
       { s1 with btnDownStart1 := currentMillis, btnPressHandled1 := false },
     none)
  else
    let s2 := if btnNumber = 0 then { s1 with btnDownStart0 := 0 }
              else { s1 with btnDownStart1 := 0 }
    if btnNumber = 0 ∧ s2.btnState1 = false ∧ s2.btnPressHandled0 = false then
      (s2, some LogicalAction.cycleColorAct)
    else if btnNumber = 1 ∧ s2.btnState0 = false ∧ s2.btnPressHandled1 = false then
      (s2, some LogicalAction.cycleModeAct)
    else if btnNumber = 1 ∧ s2.btnState0 = true ∧ s2.btnPressHandled1 = false then
      ({ s2 with btnPressHandled0 := true }, some LogicalAction.incBrightnessAct)
    else (s2, none)

/-- Runs `btnStateChange` over a list of debounced transitions
`(btnNumber, newState, currentMillis, duration)`, collecting the emitted
actions in order. -/
def runEvents : BtnS → List (Nat × Bool × Nat × Nat) →
    BtnS × List LogicalAction
  | s, [] => (s, [])
  | s, e :: rest =>
    let r := btnStateChange s e.1 e.2.1 e.2.2.1 e.2.2.2
    let r2 := runEvents r.1 rest
    (r2.1, r.2.toList ++ r2.2)

/-- The selection-level effect of each decoded action (src 330-385). -/
def applyAction (a : LogicalAction) (s : Selection) : Selection :=
  match a with
  | LogicalAction.cycleColorAct =>
      { s with currentColorIndex := cycleColor s.currentColorIndex }
  | LogicalAction.cycleModeAct =>
      { s with currentMode := cycleMode s.currentMode }
  | LogicalAction.incBrightnessAct =>
      { s with inputBrightnessLevel := incBrightness s.inputBrightnessLevel }

/-- Applies a sequence of decoded actions to a selection. -/
def runActions (s : Selection) (acts : List LogicalAction) : Selection :=
  acts.foldl (fun t a => applyAction a t) s

/-- The range invariant on the persisted selection. -/
def Selection.inRange (s : Selection) : Prop :=
  s.currentMode ≤ 2 ∧ s.inputBrightnessLevel ≤ 4 ∧ s.currentColorIndex ≤ 7

theorem applyAction_inRange (a : LogicalAction) (s : Selection)
    (h : s.inRange) : (applyAction a s).inRange := by
  obtain ⟨h0, h1, h2⟩ := h
  cases a <;>
    simp only [applyAction, Selection.inRange, cycleColor, cycleMode,
      incBrightness, NUM_COLORS, MODECOUNT] <;>
    refine ⟨?_, ?_, ?_⟩ <;> first
      | assumption
      | (split_ifs <;> omega)

theorem runActions_inRange (acts : List LogicalAction) :
    ∀ s : Selection, s.inRange → (runActions s acts).inRange := by
  induction acts with
  | nil => intro s h; exact h
  | cons a rest ih =>
    intro s h
    exact ih (applyAction a s) (applyAction_inRange a s h)

theorem loadSelection_inRange (e0 e1 e2 : Nat)
    (h0 : e0 = 255 ∨ e0 ≤ 2) (h1 : e1 = 255 ∨ e1 ≤ 4)
    (h2 : e2 = 255 ∨ e2 ≤ 7) :
    (loadSelection initialSelection e0 e1 e2).inRange := by
  dsimp only [loadSelection, Selection.inRange, initialSelection, MODE_UNIFIED]
  refine ⟨?_, ?_, ?_⟩ <;> split_ifs <;> omega

/-- C2: every state reached from startup (a store whose bytes are each either
the 255 sentinel or in range, then any sequence of decoded actions) has
currentMode in {0,1,2}, inputBrightnessLevel in [0,4] and currentColorIndex in
[0,7]; and each cycling operation maps an in-range value to an in-range value,
wrapping to 0 exactly when its upper boundary (7, 2, 4 respectively) is
passed. -/
theorem c2_reachable_ranges (e0 e1 e2 : Nat)
    (h0 : e0 = 255 ∨ e0 ≤ 2) (h1 : e1 = 255 ∨ e1 ≤ 4)
    (h2 : e2 = 255 ∨ e2 ≤ 7) (acts : List LogicalAction) :
    ((runActions (loadSelection initialSelection e0 e1 e2) acts).currentMode ≤ 2 ∧
     (runActions (loadSelection initialSelection e0 e1 e2)
        acts).inputBrightnessLevel ≤ 4 ∧
     (runActions (loadSelection initialSelection e0 e1 e2)
        acts).currentColorIndex ≤ 7) ∧
    (∀ c, c ≤ 7 → cycleColor c ≤ 7 ∧ (cycleColor c = 0 ↔ c = 7)) ∧
    (∀ m, m ≤ 2 → cycleMode m ≤ 2 ∧ (cycleMode m = 0 ↔ m = 2)) ∧
    (∀ l, l ≤ 4 → incBrightness l ≤ 4 ∧ (incBrightness l = 0 ↔ l = 4)) := by
  refine ⟨runActions_inRange acts _ (loadSelection_inRange e0 e1 e2 h0 h1 h2),
    ?_, ?_, ?_⟩ <;> decide

theorem c2_reachable_ranges_witness :
    ((255 : Nat) = 255 ∨ (255 : Nat) ≤ 2) ∧
    (runActions (loadSelection initialSelection 255 255 255)
      [LogicalAction.cycleColorAct]).currentColorIndex ≤ 7 :=
  ⟨Or.inl rfl,
   (c2_reachable_ranges 255 255 255 (Or.inl rfl) (Or.inl rfl) (Or.inl rfl)
     [LogicalAction.cycleColorAct]).1.2.2⟩

/-- C4: the halfway blend computes each channel independently as
A + floor((B-A)/2) when A<B, B + floor((A-B)/2) when A>B, A when equal, and
the red channel of the blend of (255,0,0) and (0,0,0) is 127. -/
theorem c4_halfway_blend :
    (∀ A B : RGB, halfwayBetweenColors A B =
      ⟨if A.r < B.r then A.r + (B.r - A.r) / 2
       else if B.r < A.r then B.r + (A.r - B.r) / 2 else A.r,
       if A.g < B.g then A.g + (B.g - A.g) / 2
       else if B.g < A.g then B.g + (A.g - B.g) / 2 else A.g,
       if A.b < B.b then A.b + (B.b - A.b) / 2
       else if B.b < A.b then B.b + (A.b - B.b) / 2 else A.b⟩) ∧
    (halfwayBetweenColors ⟨255, 0, 0⟩ ⟨0, 0, 0⟩).r = 127 :=
  ⟨fun A B => rfl, by decide⟩

/-- C8: applied to an in-range value, CycleColor has order 8, CycleMode
order 3 and IncreaseBrightness order 5. -/
theorem c8_cyclic_orders :
    (∀ c, c ≤ 7 → cycleColor^[8] c = c) ∧
    (∀ m, m ≤ 2 → cycleMode^[3] m = m) ∧
    (∀ l, l ≤ 4 → incBrightness^[5] l = l) := by
  decide

theorem c8_cyclic_orders_witness :
    (0 : Nat) ≤ 7 ∧ cycleColor^[8] 0 = 0 :=
  ⟨by decide, c8_cyclic_orders.1 0 (by decide)⟩

/-- C10: for an in-range selection, saving the three bytes and then loading
them back (from any prior selection) restores exactly the same selection. -/
theorem c10_save_load_roundtrip (sel prior : Selection)
    (h0 : sel.currentMode ≤ 2) (h1 : sel.inputBrightnessLevel ≤ 4)
    (h2 : sel.currentColorIndex ≤ 7) :
    loadSelection prior (saveState sel).1 (saveState sel).2.1
      (saveState sel).2.2 = sel := by
  obtain ⟨m, l, c⟩ := sel
  simp only [Selection.currentMode, Selection.inputBrightnessLevel,
    Selection.currentColorIndex] at h0 h1 h2
  simp only [saveState, loadSelection, Selection.mk.injEq]
  refine ⟨?_, ?_, ?_⟩ <;> (rw [if_neg (by omega)]; omega)

theorem c10_save_load_roundtrip_witness :
    (1 : Nat) ≤ 2 ∧
    loadSelection initialSelection (saveState ⟨1, 2, 3⟩).1
      (saveState ⟨1, 2, 3⟩).2.1 (saveState ⟨1, 2, 3⟩).2.2 = ⟨1, 2, 3⟩ :=
  ⟨by decide, c10_save_load_roundtrip ⟨1, 2, 3⟩ initialSelection
    (by decide) (by decide) (by decide)⟩

/-- C6: the startup load keeps the compiled-in default for each field whose
stored byte is the sentinel 255 and adopts the stored byte otherwise; it sets
actualBrightness to 0 and every actualColor to black, and targetBrightness to
the table entry for the loaded level; for stored bytes (255, 2, 6) the mode
keeps its default while the level becomes 2 and the color index 6. -/
theorem c6_load_state (e0 e1 e2 : Nat) :
    ((e0 = 255 → (loadState initialSelection e0 e1 e2).1.currentMode =
        initialSelection.currentMode) ∧
     (e0 ≠ 255 → (loadState initialSelection e0 e1 e2).1.currentMode = e0) ∧
     (e1 = 255 → (loadState initialSelection e0 e1 e2).1.inputBrightnessLevel =
        initialSelection.inputBrightnessLevel) ∧
     (e1 ≠ 255 →
        (loadState initialSelection e0 e1 e2).1.inputBrightnessLevel = e1) ∧
     (e2 = 255 → (loadState initialSelection e0 e1 e2).1.currentColorIndex =
        initialSelection.currentColorIndex) ∧
     (e2 ≠ 255 →
        (loadState initialSelection e0 e1 e2).1.currentColorIndex = e2)) ∧
    (loadState initialSelection e0 e1 e2).2.1 = brightnessValues.getD
      ((loadState initialSelection e0 e1 e2).1.inputBrightnessLevel) 0 ∧
    (loadState initialSelection e0 e1 e2).2.2.1 = 0 ∧
    (loadState initialSelection e0 e1 e2).2.2.2 =
      List.replicate NUM_LEDS black ∧
    (loadState initialSelection 255 2 6).1 =
      ⟨initialSelection.currentMode, 2, 6⟩ := by
  refine ⟨⟨?_, ?_, ?_, ?_, ?_, ?_⟩, rfl, rfl, rfl, by decide⟩ <;>
    (intro h; simp only [loadState, loadSelection]; simp [h])

theorem c6_load_state_witness :
    (255 : Nat) = 255 ∧
    (loadState initialSelection 255 2 6).1.currentMode =
      initialSelection.currentMode :=
  ⟨rfl, (c6_load_state 255 2 6).1.1 rfl⟩

/-- The distance `|a - b|` between two channel values, as a Nat. -/
def channelDist (a b : Nat) : Nat := (a - b) + (b - a)

theorem graduateChannel_lt (a t : Nat) (h : a < t) (ht : t ≤ 255) :
    graduateChannel a t = a + 1 := by
  simp only [graduateChannel, constrain, LED_COLOR_GRADUATION]
  split_ifs <;> omega

theorem graduateChannel_gt (a t : Nat) (h : t < a) (ha : a ≤ 255) :
    graduateChannel a t = a - 1 := by
  simp only [graduateChannel, constrain, LED_COLOR_GRADUATION]
  split_ifs <;> omega

theorem graduateChannel_self (a : Nat) (ha : a ≤ 255) :
    graduateChannel a a = a := by
  simp only [graduateChannel, constrain, LED_COLOR_GRADUATION]
  split_ifs <;> omega

theorem graduateBrightness_lt (a t : Nat) (h : a < t) (ht : t ≤ 255) :
    graduateBrightness a t = a + 1 := by
  simp only [graduateBrightness, constrain, LED_COLOR_GRADUATION]
  split_ifs <;> omega

theorem graduateBrightness_gt (a t : Nat) (h : t < a) (ha : a ≤ 255) :
    graduateBrightness a t = a - 1 := by
  simp only [graduateBrightness, constrain, LED_COLOR_GRADUATION]
  split_ifs <;> omega

theorem graduateChannel_iter (t : Nat) (ht : t ≤ 255) :
    ∀ d a, a ≤ 255 → channelDist a t = d →
      (fun x => graduateChannel x t)^[d] a = t := by
  intro d
  induction d with
  | zero =>
    intro a ha hd
    simp only [Function.iterate_zero, id]
    simp only [channelDist] at hd
    omega
  | succ d ih =>
    intro a ha hd
    rw [Function.iterate_succ_apply]
    show (fun x => graduateChannel x t)^[d] (graduateChannel a t) = t
    simp only [channelDist] at hd
    rcases Nat.lt_trichotomy a t with h | h | h
    · rw [graduateChannel_lt a t h ht]
      exact ih (a + 1) (by omega) (by simp only [channelDist]; omega)
    · omega
    · rw [graduateChannel_gt a t h ha]
      exact ih (a - 1) (by omega) (by simp only [channelDist]; omega)

theorem graduateChannel_fix (t : Nat) (ht : t ≤ 255) (k : Nat) :
    (fun x => graduateChannel x t)^[k] t = t := by
  induction k with
  | zero => rfl
  | succ k ih =>
    rw [Function.iterate_succ_apply]
    show (fun x => graduateChannel x t)^[k] (graduateChannel t t) = t
    rw [graduateChannel_self t ht]
    exact ih

/-- C3: an eligible Graduator step moves each differing channel (and the
brightness) by exactly 1 unit toward its target without ever passing it, so
the per-channel distance strictly decreases by 1 per step and the channel
reaches its target in exactly `channelDist a t` steps, which is at most 255;
after 255 eligible steps the channel always equals its target. -/
theorem c3_graduator_convergence (a t : Nat) (ha : a ≤ 255) (ht : t ≤ 255) :
    (a < t → graduateChannel a t = a + 1) ∧
    (t < a → graduateChannel a t = a - 1) ∧
    (a ≠ t → channelDist (graduateChannel a t) t + 1 = channelDist a t) ∧
    (a < t → graduateBrightness a t = a + 1) ∧
    (t < a → graduateBrightness a t = a - 1) ∧
    channelDist a t ≤ 255 ∧
    (fun x => graduateChannel x t)^[channelDist a t] a = t ∧
    (fun x => graduateChannel x t)^[255] a = t := by
  have hconv := graduateChannel_iter t ht (channelDist a t) a ha rfl
  have hdist : channelDist a t ≤ 255 := by simp only [channelDist]; omega
  refine ⟨fun h => graduateChannel_lt a t h ht,
    fun h => graduateChannel_gt a t h ha, ?_,
    fun h => graduateBrightness_lt a t h ht,
    fun h => graduateBrightness_gt a t h ha, hdist, hconv, ?_⟩
  · intro h
    rcases Nat.lt_trichotomy a t with hlt | heq | hgt
    · rw [graduateChannel_lt a t hlt ht]; simp only [channelDist]; omega
    · exact absurd heq h
    · rw [graduateChannel_gt a t hgt ha]; simp only [channelDist]; omega
  · have hsplit : 255 - channelDist a t + channelDist a t = 255 := by omega
    calc (fun x => graduateChannel x t)^[255] a
        = (fun x => graduateChannel x t)^[255 - channelDist a t + channelDist a t] a := by
          rw [hsplit]
      _ = (fun x => graduateChannel x t)^[255 - channelDist a t]
            ((fun x => graduateChannel x t)^[channelDist a t] a) :=
          Function.iterate_add_apply _ _ _ a
      _ = (fun x => graduateChannel x t)^[255 - channelDist a t] t := by rw [hconv]
      _ = t := graduateChannel_fix t ht _

theorem c3_graduator_convergence_witness :
    (254 : Nat) ≤ 255 ∧ graduateChannel 254 255 = 255 := by
  have h := (c3_graduator_convergence 254 255 (by decide) (by decide)).1
    (by decide)
  exact ⟨by decide, by rw [h]⟩

/-- C5: in Rain mode, for any currentRainPhase in {0,1,2}, colorIndex in
[0,7] and LED position, a position whose static phase id equals the current
phase gets the base color, one whose id is (phase+1) mod 3 gets the halfway
blend of base and complementary, and one whose id is (phase+2) mod 3 gets
the complementary color. -/
theorem c5_rain_targets (phase ci i : Nat) (old : RGB)
    (hp : phase ≤ 2) (hc : ci ≤ 7) (hi : i < NUM_LEDS) :
    (rain_phase_LED_map.getD i 0 = phase →
      computeTarget MODE_RAIN ci phase i old = colors.getD ci black) ∧
    (rain_phase_LED_map.getD i 0 = (phase + 1) % 3 →
      computeTarget MODE_RAIN ci phase i old =
        halfwayBetweenColors (colors.getD ci black)
          (complementary_colors.getD ci black)) ∧
    (rain_phase_LED_map.getD i 0 = (phase + 2) % 3 →
      computeTarget MODE_RAIN ci phase i old =
        complementary_colors.getD ci black) := by
  simp only [NUM_LEDS] at hi
  interval_cases phase <;> interval_cases i <;>
    simp [computeTarget, rain_phase_LED_map, MODE_RAIN, MODE_UNIFIED,
      MODE_COMPLEMENTARY]

theorem c5_rain_targets_witness :
    (0 : Nat) ≤ 2 ∧
    computeTarget MODE_RAIN 0 0 2 black =
      halfwayBetweenColors (colors.getD 0 black)
        (complementary_colors.getD 0 black) :=
  ⟨by decide,
   (c5_rain_targets 0 0 2 black (by decide) (by decide) (by decide)).2.1
     (by decide)⟩

/-- A converged Unified-mode state used to exercise the frame-rate limiter:
color index 0, all targets and actuals black, brightness converged,
lastLEDUpdate = 0. -/
def limiterProbeState : LightState :=
  { currentMode := MODE_UNIFIED
    currentColorIndex := 0
    inputBrightnessLevel := 3
    targetBrightness := 180
    actualBrightness := 180
    currentRainPhase := 0
    targetColor := List.replicate NUM_LEDS black
    actualColor := List.replicate NUM_LEDS black
    lastLEDUpdate := 0 }

/-- C7 counterexample: on a tick that fails the frame-rate limiter
(now = lastLEDUpdate = 0), `updateLEDs` does not recompute the targets: in
Unified mode with color index 0 they stay black instead of becoming the base
color (255,255,255), so the recomputation is not independent of the
limiter. -/
theorem c7_counterexample :
    ¬ (stepLEDs limiterProbeState 0).1.targetColor =
        computeTargets limiterProbeState := by
  decide

/-- Reading position `i < NUM_LEDS` of the recomputed target list gives the
per-position target computation. -/
theorem computeTargets_getD (s : LightState) (i : Nat) (hi : i < NUM_LEDS) :
    (computeTargets s).getD i black =
      computeTarget s.currentMode s.currentColorIndex s.currentRainPhase i
        (s.targetColor.getD i black) := by
  simp only [computeTargets]
  rw [List.getD_eq_getElem?_getD, List.getElem?_map, List.getElem?_range hi]
  rfl

/-- C7 (amended): target recomputation happens exactly on the ticks that pass
the frame-rate limiter; on such a tick every LED position's target is
recomputed for the current mode (Unified: every target is the base color;
Complementary: base at front positions, complementary at rear). -/
theorem c7_targets_recomputed (s : LightState) (now : Nat)
    (he : frameEligible now s.lastLEDUpdate = true) :
    (stepLEDs s now).1.targetColor = computeTargets s ∧
    (s.currentMode = MODE_UNIFIED → ∀ i, i < NUM_LEDS →
      (stepLEDs s now).1.targetColor.getD i black =
        colors.getD s.currentColorIndex black) ∧
    (s.currentMode = MODE_COMPLEMENTARY → ∀ i, i < NUM_LEDS →
      (stepLEDs s now).1.targetColor.getD i black =
        (if complementary_LED_map.getD i false = COMPLEMENTARY_FRONT then
          colors.getD s.currentColorIndex black
         else complementary_colors.getD s.currentColorIndex black)) := by
  have htc : (stepLEDs s now).1.targetColor = computeTargets s := by
    simp only [stepLEDs, he, if_true]
  refine ⟨htc, ?_, ?_⟩
  · intro hmode i hi
    rw [htc, computeTargets_getD s i hi, hmode]
    simp [computeTarget, MODE_UNIFIED]
  · intro hmode i hi
    rw [htc, computeTargets_getD s i hi, hmode]
    simp [computeTarget, MODE_UNIFIED, MODE_COMPLEMENTARY]

theorem c7_targets_recomputed_witness :
    frameEligible 9 limiterProbeState.lastLEDUpdate = true ∧
    (stepLEDs limiterProbeState 9).1.targetColor =
      computeTargets limiterProbeState :=
  ⟨by decide, (c7_targets_recomputed limiterProbeState 9 (by decide)).1⟩

/-- C9: on a limiter-passing tick where, after target recomputation, every
LED position's actual color already equals its target and the actual
brightness equals the target brightness, the tick stages no strip calls at
all (no pixel, no brightness, no frame commit) and the somethingChanged flag
stays false. -/
theorem c9_no_redundant_commit (s : LightState) (now : Nat)
    (he : frameEligible now s.lastLEDUpdate = true)
    (hc : ∀ i, i < NUM_LEDS →
      s.actualColor.getD i black = (computeTargets s).getD i black)
    (hb : s.targetBrightness = s.actualBrightness) :
    (stepLEDs s now).2.1 = [] ∧ (stepLEDs s now).2.2 = false := by
  have hnone : ∀ i, i < NUM_LEDS →
      (gradPixel i (s.actualColor[i]?.getD black)
        ((computeTargets s)[i]?.getD black)).2.1 = none ∧
      (gradPixel i (s.actualColor[i]?.getD black)
        ((computeTargets s)[i]?.getD black)).2.2 = false := by
    intro i hi
    have hceq : s.actualColor[i]?.getD black =
        (computeTargets s)[i]?.getD black := by
      have h := hc i hi
      simpa only [List.getD_eq_getElem?_getD] using h
    simp only [gradPixel]
    rw [if_pos hceq]
    exact ⟨rfl, rfl⟩
  have hbne : ¬ s.targetBrightness ≠ s.actualBrightness := fun hn => hn hb
  constructor <;> simp [stepLEDs, he, hbne]
  · exact ⟨fun i hi => (hnone i hi).1, fun i hi => (hnone i hi).2⟩
  · exact fun i hi => (hnone i hi).2

/-- A converged Complementary-mode state: actual colors already match the
recomputed targets, brightness converged. -/
def convergedState : LightState :=
  { currentMode := MODE_COMPLEMENTARY
    currentColorIndex := 1
    inputBrightnessLevel := 3
    targetBrightness := 180
    actualBrightness := 180
    currentRainPhase := 0
    targetColor := (List.range NUM_LEDS).map fun i =>
      if complementary_LED_map.getD i false = COMPLEMENTARY_FRONT then
        colors.getD 1 black
      else complementary_colors.getD 1 black
    actualColor := (List.range NUM_LEDS).map fun i =>
      if complementary_LED_map.getD i false = COMPLEMENTARY_FRONT then
        colors.getD 1 black
      else complementary_colors.getD 1 black
    lastLEDUpdate := 0 }

theorem c9_no_redundant_commit_witness :
    frameEligible 9 convergedState.lastLEDUpdate = true ∧
    (stepLEDs convergedState 9).2.1 = [] ∧
    (stepLEDs convergedState 9).2.2 = false :=
  ⟨by decide,
   c9_no_redundant_commit convergedState 9 (by decide) (by decide)
     (by decide)⟩

/-- The decoder state with both buttons up and no press pending. -/
def idleButtons : BtnS := ⟨false, false, false, false, 0, 0⟩

/-- C1: from any decoder state with both buttons up, the debounced event
sequence "A down, B down, B up (while A still down), A up" emits exactly the
single action IncreaseBrightness — in particular zero CycleColor actions —
and the B-while-A-down release sets button A's press-handled flag, which is
what suppresses the action on A's later release. -/
theorem c1_hold_a_tap_b (s : BtnS) (tA tB tBu tAu dB dA : Nat)
    (h0 : s.btnState0 = false) (h1 : s.btnState1 = false) :
    (runEvents s [(0, true, tA, 0), (1, true, tB, 0), (1, false, tBu, dB),
       (0, false, tAu, dA)]).2 = [LogicalAction.incBrightnessAct] ∧
    (runEvents s [(0, true, tA, 0), (1, true, tB, 0),
       (1, false, tBu, dB)]).1.btnPressHandled0 = true := by
  obtain ⟨b0, b1, p0, p1, d0, d1⟩ := s
  dsimp only at h0 h1
  subst h0 h1
  constructor <;> simp [runEvents, btnStateChange]

theorem c1_hold_a_tap_b_witness :
    idleButtons.btnState0 = false ∧
    (runEvents idleButtons [(0, true, 100, 0), (1, true, 200, 0),
       (1, false, 300, 100), (0, false, 400, 300)]).2 =
      [LogicalAction.incBrightnessAct] :=
  ⟨rfl, (c1_hold_a_tap_b idleButtons 100 200 300 400 100 300 rfl rfl).1⟩

end NightLight
